import Mathlib

/-!
Verification development for `wiki_scraper.py`, a two-stage wiki scraping
pipeline: link discovery (`fetch_creature_detail_page_links`) and per-page
record extraction (`fetch_creature_info`).

The HTML-parsing collaborator (BeautifulSoup) is abstracted away: a parsed
detail page is given by the flattened cell texts of its "wikitable" tables
(in document order) plus the first image element, and the parsed index page
is given by its list of "gallerytext" entries.  Network fetching is likewise
abstracted: the extraction function receives the already-parsed page, and the
image fetch is an oracle `String → Option (List Nat)` (bytes on HTTP 200,
`none` otherwise).

Python exceptions escaping the scraping code (IndexError from
`table2_cells[5]`, ValueError from unpacking `split(":")[0:2]`,
AttributeError from `None.get`) are modelled by the functions returning
`none`.
-/

/-- The first `img` element of a page, as found by `soup.find("img")`:
its `src` and `alt` attributes (each possibly absent). -/
structure Img where
  src : Option String
  alt : Option String
deriving DecidableEq, Repr

/-- A parsed detail page: for each table with class "wikitable" (in document
order) the list of its `td` cell texts flattened across rows (as produced by
`table.find_all("td")`), and the first image element if any. -/
structure Page where
  tables : List (List String)
  img : Option Img
deriving DecidableEq, Repr

/-- One `a` element: its `href` attribute as returned by `a.get("href")`
(`none` when the attribute is missing). -/
structure LinkEl where
  href : Option String
deriving DecidableEq, Repr

/-- One `div.gallerytext` entry of the index page: the result of
`gallerytext_element.find("a")`, which is `none` when the entry contains
no `a` element at all. -/
structure GalleryEntry where
  firstLink : Option LinkEl
deriving DecidableEq, Repr

/-- The extracted record (Python dict).  `none` in a field models the key
being absent from the dict.  `image_alt` is doubly optional because Python
stores `img.get("alt")`, which may itself be `None`, under a present key. -/
structure CreatureRecord where
  wiki_url : String
  number : Option (Int ⊕ String)
  name : Option String
  personality : Option String
  likes : Option (List String)
  dislikes : Option (List String)
  image_url : Option String
  image_alt : Option (Option String)
  attribution : Option String
deriving DecidableEq, Repr

/-- The fixed site origin `wiki_base_url` from the source. -/
def wiki_base_url : String := "https://thessum.miraheze.org"

/-- Step function of the link-discovery loop: for one gallerytext entry,
`a = entry.find("a")`, then `href = a.get("href")` (AttributeError, i.e.
`none`, when `a` is `None`), then `if href:` append `wiki_base_url + href`.
Python truthiness: `None` and the empty string are both falsy. -/
def linkStep (acc : List String) (e : GalleryEntry) : Option (List String) :=
  match e.firstLink with
  | none => none
  | some a =>
    match a.href with
    | none => some acc
    | some h => if h = "" then some acc else some (acc ++ [wiki_base_url ++ h])

/-- `fetch_creature_detail_page_links`, modulo the index-page fetch and parse:
the input is the list of `div.gallerytext` entries found on the parsed index
page, the output is the list of absolute detail-page URLs (or `none` when the
loop raises AttributeError on an entry with no `a` element). -/
def fetch_creature_detail_page_links (entries : List GalleryEntry) : Option (List String) :=
  entries.foldlM linkStep []

/-- Python `s.split(sep)` for a single-character separator, on character
lists; structurally recursive (via `foldr`) so that it also reduces inside
the kernel.  `split` never returns an empty list: splitting the empty string
yields `[[]]`, and separators at the ends produce empty segments, as in
Python. -/
def splitOnChar (sep : Char) (l : List Char) : List (List Char) :=
  l.foldr
    (fun c acc =>
      match acc with
      | [] => [[c]]
      | a :: as => if c = sep then [] :: a :: as else (c :: a) :: as)
    [[]]

/-- Python `s.strip()` with its default argument on character lists: remove
leading and trailing whitespace.  (Python also strips a few rarer whitespace
characters such as form feed and non-ASCII spaces; no claim exercises
them.) -/
def trimChars (l : List Char) : List Char :=
  ((l.dropWhile Char.isWhitespace).reverse.dropWhile Char.isWhitespace).reverse

/-- Numeric value of a list of decimal digit characters. -/
def natOfDigits (l : List Char) : Nat :=
  l.foldl (fun acc c => acc * 10 + (c.toNat - 48)) 0

/-- Python `int(s)` restricted to the mainstream grammar: optional
whitespace (removed by `trim`), an optional single sign, then one or more
ASCII digits; `none` models ValueError.  (Python additionally accepts
underscore digit grouping and non-ASCII digits; those corners are not
exercised by any claim.) -/
def pyInt (s : String) : Option Int :=
  match trimChars s.data with
  | [] => none
  | '+' :: ds =>
    if ds ≠ [] ∧ ds.all Char.isDigit then some (Int.ofNat (natOfDigits ds)) else none
  | '-' :: ds =>
    if ds ≠ [] ∧ ds.all Char.isDigit then some (-(Int.ofNat (natOfDigits ds))) else none
  | ds =>
    if ds.all Char.isDigit then some (Int.ofNat (natOfDigits ds)) else none

/-- Contiguous-subsequence (substring) test: `containsSeq pat l` is true iff
`pat` occurs contiguously inside `l`; models Python `pat in s`. -/
def containsSeq : List Char → List Char → Bool
  | pat, [] => pat.isEmpty
  | pat, c :: t => pat.isPrefixOf (c :: t) || containsSeq pat t

/-- One iteration of the table-1 loop `for i, cell in enumerate(table1_cells)`:
skip cells containing "TBA", otherwise positionally assign `number` (index 0,
integer parse with raw-string fallback), `name` (index 1), `personality`
(index 3). -/
def table1Step (r : CreatureRecord) (ic : Nat × String) : CreatureRecord :=
  if containsSeq "TBA".data ic.2.data then r
  else if ic.1 = 0 then
    { r with number := some ((pyInt ic.2).elim (Sum.inr ic.2) Sum.inl) }
  else if ic.1 = 1 then { r with name := some ic.2 }
  else if ic.1 = 3 then { r with personality := some ic.2 }
  else r

/-- The whole table-1 loop over the enumerated flattened cells. -/
def applyTable1 (cells : List String) (r : CreatureRecord) : CreatureRecord :=
  cells.enum.foldl table1Step r

/-- `compatibility_info.split(":")[0:2]` unpacked into `key, values`:
`none` models the ValueError raised when the line has no colon (fewer than
two values to unpack); with three or more colons everything after the second
segment is discarded. -/
def lineParts (line : String) : Option (String × String) :=
  match splitOnChar ':' line.data with
  | k :: v :: _ => some (⟨k⟩, ⟨v⟩)
  | _ => none

/-- `[c.strip() for c in values.split(",")]`. -/
def lineCreatures (v : String) : List String :=
  (splitOnChar ',' v.data).map (fun cl => (⟨trimChars cl⟩ : String))

/-- `"likes" in key.lower()`. -/
def hasLikes (k : String) : Bool := containsSeq "likes".data (k.data.map Char.toLower)

/-- `"dislikes" in key.lower()`. -/
def hasDislikes (k : String) : Bool := containsSeq "dislikes".data (k.data.map Char.toLower)

/-- One iteration of the compatibility loop body: empty lines and lines
containing "TBA" are passed over; otherwise the line is split into key and
values, and the creature names are appended to `likes` and/or `dislikes`
under the two independent substring checks. -/
def compatStep (acc : List String × List String) (line : String) :
    Option (List String × List String) :=
  if line = "" ∨ containsSeq "TBA".data line.data then some acc
  else
    match lineParts line with
    | none => none
    | some (k, v) =>
      let cs := lineCreatures v
      some (acc.1 ++ (if hasLikes k then cs else []),
            acc.2 ++ (if hasDislikes k then cs else []))

/-- The compatibility loop over `compatibility_cell.text.split("\n")`. -/
def processLines (lines : List String) : Option (List String × List String) :=
  lines.foldlM compatStep ([], [])

/-- Likes/dislikes computed from the compatibility cell's text: the whole
cell equal to "TBA" after stripping yields two empty lists, otherwise the
line loop runs (and may raise, i.e. return `none`). -/
def compatLists (compat : String) : Option (List String × List String) :=
  if trimChars compat.data = "TBA".data then some ([], [])
  else processLines ((splitOnChar (Char.ofNat 10) compat.data).map (fun l => (⟨l⟩ : String)))

/-- Python's string formatting of an optional value: `f"{x}"` renders
`None` as the text "None". -/
def pyStrOfOption : Option String → String
  | none => "None"
  | some s => s

/-- The base64 alphabet. -/
def base64Chars : List Char :=
  "ABCDEFGHIJKLMNOPQRSTUVWXYZabcdefghijklmnopqrstuvwxyz0123456789+/".data

/-- Character of the base64 alphabet at a 6-bit index. -/
def b64Char (i : Nat) : Char := base64Chars.getD i 'A'

/-- Standard base64 encoding of a byte sequence (with `=` padding), as
`base64.b64encode(...).decode("utf-8")` produces. -/
def base64Encode : List Nat → List Char
  | [] => []
  | [b1] => [b64Char (b1 / 4), b64Char (b1 % 4 * 16), '=', '=']
  | [b1, b2] => [b64Char (b1 / 4), b64Char (b1 % 4 * 16 + b2 / 16), b64Char (b2 % 16 * 4), '=']
  | b1 :: b2 :: b3 :: rest =>
    b64Char (b1 / 4) :: b64Char (b1 % 4 * 16 + b2 / 16) ::
      b64Char (b2 % 16 * 4 + b3 / 64) :: b64Char (b3 % 64) :: base64Encode rest

/-- The apostrophe character, used inside the attribution template text. -/
def apos : String := ⟨[Char.ofNat 39]⟩

/-- `detail_page_url.split("/")[-1]` on character lists: the characters after
the last '/' (the whole list when no '/' occurs). -/
def lastSegment (l : List Char) : List Char :=
  ((l.reverse.takeWhile (fun c => c ≠ '/')).reverse)

/-- `detail_page_url.split("/")[-1]` as a string. -/
def lastSegmentStr (s : String) : String := ⟨lastSegment s.data⟩

/-- `detail_page_name.replace("_", " ")`: for the single-character pattern
this is a character-wise map. -/
def replaceUnderscores (l : List Char) : List Char :=
  l.map (fun c => if c = '_' then ' ' else c)

/-- The fixed main-page link embedded in the attribution template. -/
def mainPageUrl : String := "https://thessum.miraheze.org/wiki/Main_Page"

/-- The fixed license link embedded in the attribution template. -/
def licenseUrl : String := "https://creativecommons.org/licenses/by-sa/4.0/"

/-- The edit-history link built from the raw final path segment of the
detail page URL. -/
def historyUrl (url : String) : String :=
  "https://thessum.miraheze.org/w/index.php?title=" ++ lastSegmentStr url ++ "&action=history"

/-- The attribution f-string of step 7 of `fetch_creature_info`, with the
three interpolations `detail_page_url`, `detail_page_name.replace("_", " ")`
and `detail_page_name` (the latter inside the history URL). -/
def attribution (url : String) : String :=
  "Information on/pictures of the creature(s) are from the <a href=\"" ++ mainPageUrl ++
  "\">The Ssum: Forbidden Lab" ++ apos ++
  "s Unofficial Miraheze Wiki</a>. Authors of the Wiki article <a href=\"" ++ url ++
  "\">" ++ (⟨replaceUnderscores (lastSegment url.data)⟩ : String) ++
  "</a> are <a href=\"" ++ historyUrl url ++
  "\">The Ssum: Forbidden Lab" ++ apos ++
  "s Unofficial Miraheze Wiki and contributors</a>. Provided under the licence <a href=\"" ++
  licenseUrl ++
  "\">Creative Commons Attribution-ShareAlike 4.0 International (CC BY-SA 4.0)</a>."

/-- The record at the start of extraction: `{"wiki_url": detail_page_url}`. -/
def baseRecord (url : String) : CreatureRecord :=
  { wiki_url := url, number := none, name := none, personality := none,
    likes := none, dislikes := none, image_url := none, image_alt := none,
    attribution := none }

/-- Steps 5 and 7 of `fetch_creature_info`: optionally inline the first
image (building `image_url` from the protocol-relative `src`, fetching it,
and on success replacing it by a PNG-typed data URL), then unconditionally
set the attribution string. -/
def finalizeRecord (page : Page) (url : String) (fetchImg : String → Option (List Nat))
    (r : CreatureRecord) : CreatureRecord :=
  match page.img with
  | none => { r with attribution := some (attribution url) }
  | some im =>
    match fetchImg ("https:" ++ pyStrOfOption im.src) with
    | some bytes =>
      { r with
        image_url := some ("data:image/png;base64," ++ (⟨base64Encode bytes⟩ : String)),
        image_alt := some im.alt,
        attribution := some (attribution url) }
    | none =>
      { r with
        image_url := some ("https:" ++ pyStrOfOption im.src),
        image_alt := some im.alt,
        attribution := some (attribution url) }

/-- `fetch_creature_info`, modulo the detail-page fetch and parse: the input
is the parsed page, the detail page URL, and the image-fetch oracle.  The
result is `none` when the Python code would raise (IndexError on
`table2_cells[5]` after the guard only checked for 4 cells, or ValueError in
the compatibility-line unpacking). -/
def fetch_creature_info (page : Page) (url : String)
    (fetchImg : String → Option (List Nat)) : Option CreatureRecord :=
  match page.tables with
  | [] => some (baseRecord url)
  | t1 :: rest =>
    let r1 := applyTable1 t1 (baseRecord url)
    match rest with
    | [] => some r1
    | t2 :: _ =>
      if t2.length < 4 then some r1
      else
        match t2[5]? with
        | none => none
        | some compat =>
          match compatLists compat with
          | none => none
          | some (ls, ds) =>
            some (finalizeRecord page url fetchImg
              { r1 with likes := some ls, dislikes := some ds })

/-- Second wikitable missing or carrying fewer than 4 flattened cells: the
condition under which `fetch_creature_info` returns before the compatibility
parsing begins. -/
def noCompatTable (page : Page) : Bool :=
  match page.tables[1]? with
  | none => true
  | some t2 => decide (t2.length < 4)

/-- The pattern announcing a link target in the attribution HTML. -/
def hrefPat : List Char := "href=\"".data

/-- Extract the link targets of an HTML string: scan left to right, and at
each occurrence of `href="` take the characters up to the closing quote and
resume after it. -/
def hrefTargets : List Char → List (List Char)
  | [] => []
  | c :: cs =>
    if hrefPat.isPrefixOf (c :: cs) then
      ((cs.drop 5).takeWhile (fun x => x ≠ '"')) ::
        hrefTargets (((cs.drop 5).dropWhile (fun x => x ≠ '"')).drop 1)
    else hrefTargets cs
termination_by l => l.length
decreasing_by
  · simp only [List.length_cons]
    have h1 := (List.dropWhile_sublist (l := cs.drop 5) (fun x => x ≠ '"')).length_le
    have h2 := List.length_drop 5 cs
    have h3 := List.length_drop 1 ((cs.drop 5).dropWhile (fun x => x ≠ '"'))
    omega
  · simp only [List.length_cons]
    omega

/-- The anchor element for the article link inside the attribution string:
target the detail page URL, display text the last path segment with
underscores replaced by spaces. -/
def articleAnchor (url : String) : String :=
  "<a href=\"" ++ url ++ "\">" ++ (⟨replaceUnderscores (lastSegment url.data)⟩ : String) ++ "</a>"

/-- Concrete detail page whose second wikitable has exactly 4 cells: the
guard `len(table2_cells) < 4` passes but `table2_cells[5]` is out of range. -/
def pageBug4 : Page := ⟨[["1", "N", "-", "P"], ["a", "b", "c", "d"]], none⟩

/-- Concrete detail page whose compatibility cell holds a non-empty line
without a colon, so the unpacking of `split(":")[0:2]` raises. -/
def pageBugNoColon : Page := ⟨[["1", "N", "-", "P"], ["a", "b", "c", "d", "e", "hello"]], none⟩

/-- Concrete detail page with a compatibility cell "TBA" and no image. -/
def pageTba : Page := ⟨[["1", "N", "-", "P"], ["a", "b", "c", "d", "e", "TBA"]], none⟩

/-- Concrete detail page following the spec's end-to-end scenario. -/
def pageGlorp : Page :=
  ⟨[["7", "Glorp", "-", "Friendly"], ["x1", "x2", "x3", "x4", "x5", "Likes: A, B\nDislikes: C"]],
    none⟩

/-- An image-fetch oracle for which every request fails. -/
def noFetch : String → Option (List Nat) := fun _ => none

/-- One absolute URL for one gallery entry, as the discovery loop emits it:
`none` when the entry is skipped (missing or empty `href`) or has no link. -/
def hrefAbs (e : GalleryEntry) : Option String :=
  e.firstLink.bind (fun a =>
    match a.href with
    | none => none
    | some h => if h = "" then none else some (wiki_base_url ++ h))

/-- Concrete one-table detail page whose first cell is "42". -/
def pageC6 : Page := ⟨[["42", "G", "-", "F"]], none⟩

/-- The record extracted from `pageC6`. -/
def recC6 : CreatureRecord :=
  { wiki_url := "u", number := some (Sum.inl 42), name := some "G",
    personality := some "F", likes := none, dislikes := none, image_url := none,
    image_alt := none, attribution := none }

/-- The record extracted from `pageTba`. -/
def recTba : CreatureRecord :=
  { wiki_url := "u", number := some (Sum.inl 1), name := some "N",
    personality := some "P", likes := some [], dislikes := some [],
    image_url := none, image_alt := none, attribution := some (attribution "u") }

/-- The attribution text between the main-page link's closing quote and the
next `href=\"` (scanner fragment). -/
def fragB : List Char :=
  ">The Ssum: Forbidden Lab".data ++ apos.data ++
    "s Unofficial Miraheze Wiki</a>. Authors of the Wiki article <a ".data

/-- The attribution text between the article link's closing quote and the
next `href=\"`: the displayed article title followed by fixed text. -/
def fragC (url : String) : List Char :=
  '>' :: (replaceUnderscores (lastSegment url.data) ++ "</a> are <a ".data)

/-- The attribution text between the history link's closing quote and the
next `href=\"`. -/
def fragE : List Char :=
  ">The Ssum: Forbidden Lab".data ++ apos.data ++
    "s Unofficial Miraheze Wiki and contributors</a>. Provided under the licence <a ".data

/-- The attribution text after the license link's closing quote. -/
def fragF : List Char :=
  ">Creative Commons Attribution-ShareAlike 4.0 International (CC BY-SA 4.0)</a>.".data

/-- The attribution text before the first `href=\"`. -/
def fragA : List Char :=
  "Information on/pictures of the creature(s) are from the <a ".data

/-- A concrete detail-page URL with an underscore in its final segment. -/
def urlX : String := "https://thessum.miraheze.org/wiki/Space_Creature_X"

theorem isPrefixOf_true_iff {l₁ l₂ : List Char} : l₁.isPrefixOf l₂ = true ↔ l₁ <+: l₂ := by
  simp

theorem containsSeq_iff (pat l : List Char) : containsSeq pat l = true ↔ pat <:+: l := by
  induction l with
  | nil => simp [containsSeq, List.isEmpty_iff]
  | cons c t ih =>
    simp only [containsSeq, Bool.or_eq_true, ih, isPrefixOf_true_iff, List.infix_cons_iff]

theorem table1Step_likes (r : CreatureRecord) (ic : Nat × String) :
    (table1Step r ic).likes = r.likes := by
  unfold table1Step
  repeat' split
  all_goals rfl

theorem table1Step_dislikes (r : CreatureRecord) (ic : Nat × String) :
    (table1Step r ic).dislikes = r.dislikes := by
  unfold table1Step
  repeat' split
  all_goals rfl

theorem table1Step_image_url (r : CreatureRecord) (ic : Nat × String) :
    (table1Step r ic).image_url = r.image_url := by
  unfold table1Step
  repeat' split
  all_goals rfl

theorem table1Step_image_alt (r : CreatureRecord) (ic : Nat × String) :
    (table1Step r ic).image_alt = r.image_alt := by
  unfold table1Step
  repeat' split
  all_goals rfl

theorem table1Step_attribution_eq (r : CreatureRecord) (ic : Nat × String) :
    (table1Step r ic).attribution = r.attribution := by
  unfold table1Step
  repeat' split
  all_goals rfl

theorem table1Step_wiki_url (r : CreatureRecord) (ic : Nat × String) :
    (table1Step r ic).wiki_url = r.wiki_url := by
  unfold table1Step
  repeat' split
  all_goals rfl

theorem table1Step_number_ne0 (r : CreatureRecord) (ic : Nat × String) (h : ic.1 ≠ 0) :
    (table1Step r ic).number = r.number := by
  unfold table1Step
  repeat' split
  all_goals rfl

theorem foldl_table1_likes (l : List (Nat × String)) (r : CreatureRecord) :
    (l.foldl table1Step r).likes = r.likes := by
  induction l generalizing r with
  | nil => rfl
  | cons p t ih => rw [List.foldl_cons, ih, table1Step_likes]

theorem foldl_table1_dislikes (l : List (Nat × String)) (r : CreatureRecord) :
    (l.foldl table1Step r).dislikes = r.dislikes := by
  induction l generalizing r with
  | nil => rfl
  | cons p t ih => rw [List.foldl_cons, ih, table1Step_dislikes]

theorem foldl_table1_image_url (l : List (Nat × String)) (r : CreatureRecord) :
    (l.foldl table1Step r).image_url = r.image_url := by
  induction l generalizing r with
  | nil => rfl
  | cons p t ih => rw [List.foldl_cons, ih, table1Step_image_url]

theorem foldl_table1_image_alt (l : List (Nat × String)) (r : CreatureRecord) :
    (l.foldl table1Step r).image_alt = r.image_alt := by
  induction l generalizing r with
  | nil => rfl
  | cons p t ih => rw [List.foldl_cons, ih, table1Step_image_alt]

theorem foldl_table1_attribution_eq (l : List (Nat × String)) (r : CreatureRecord) :
    (l.foldl table1Step r).attribution = r.attribution := by
  induction l generalizing r with
  | nil => rfl
  | cons p t ih => rw [List.foldl_cons, ih, table1Step_attribution_eq]

theorem foldl_table1_wiki_url (l : List (Nat × String)) (r : CreatureRecord) :
    (l.foldl table1Step r).wiki_url = r.wiki_url := by
  induction l generalizing r with
  | nil => rfl
  | cons p t ih => rw [List.foldl_cons, ih, table1Step_wiki_url]

theorem foldl_table1_number_enumFrom (l : List String) (i : Nat) (r : CreatureRecord)
    (h : 1 ≤ i) : ((l.enumFrom i).foldl table1Step r).number = r.number := by
  induction l generalizing i r with
  | nil => rfl
  | cons c t ih =>
    rw [List.enumFrom_cons, List.foldl_cons, ih (i + 1) _ (by omega),
      table1Step_number_ne0 _ _ (by simpa using by omega)]

theorem applyTable1_likes (cells : List String) (r : CreatureRecord) :
    (applyTable1 cells r).likes = r.likes := foldl_table1_likes _ _

theorem applyTable1_dislikes (cells : List String) (r : CreatureRecord) :
    (applyTable1 cells r).dislikes = r.dislikes := foldl_table1_dislikes _ _

theorem applyTable1_image_url (cells : List String) (r : CreatureRecord) :
    (applyTable1 cells r).image_url = r.image_url := foldl_table1_image_url _ _

theorem applyTable1_image_alt (cells : List String) (r : CreatureRecord) :
    (applyTable1 cells r).image_alt = r.image_alt := foldl_table1_image_alt _ _

theorem applyTable1_attribution_eq (cells : List String) (r : CreatureRecord) :
    (applyTable1 cells r).attribution = r.attribution := foldl_table1_attribution_eq _ _

theorem applyTable1_wiki_url (cells : List String) (r : CreatureRecord) :
    (applyTable1 cells r).wiki_url = r.wiki_url := foldl_table1_wiki_url _ _

theorem applyTable1_number_cons (c : String) (rest : List String) (r : CreatureRecord) :
    (applyTable1 (c :: rest) r).number = (table1Step r (0, c)).number := by
  unfold applyTable1
  rw [List.enum_cons, List.foldl_cons, foldl_table1_number_enumFrom _ _ _ (by omega)]

theorem finalizeRecord_likes (page : Page) (url : String) (f : String → Option (List Nat))
    (r : CreatureRecord) : (finalizeRecord page url f r).likes = r.likes := by
  unfold finalizeRecord
  rcases page.img with _ | im
  · rfl
  · rcases hf : f ("https:" ++ pyStrOfOption im.src) with _ | bytes <;> simp [hf]

theorem finalizeRecord_dislikes (page : Page) (url : String) (f : String → Option (List Nat))
    (r : CreatureRecord) : (finalizeRecord page url f r).dislikes = r.dislikes := by
  unfold finalizeRecord
  rcases page.img with _ | im
  · rfl
  · rcases hf : f ("https:" ++ pyStrOfOption im.src) with _ | bytes <;> simp [hf]

theorem finalizeRecord_number (page : Page) (url : String) (f : String → Option (List Nat))
    (r : CreatureRecord) : (finalizeRecord page url f r).number = r.number := by
  unfold finalizeRecord
  rcases page.img with _ | im
  · rfl
  · rcases hf : f ("https:" ++ pyStrOfOption im.src) with _ | bytes <;> simp [hf]

theorem finalizeRecord_attribution_set (page : Page) (url : String)
    (f : String → Option (List Nat)) (r : CreatureRecord) :
    (finalizeRecord page url f r).attribution = some (attribution url) := by
  unfold finalizeRecord
  rcases page.img with _ | im
  · rfl
  · rcases hf : f ("https:" ++ pyStrOfOption im.src) with _ | bytes <;> simp [hf]

theorem finalizeRecord_image_url_isSome (page : Page) (url : String)
    (f : String → Option (List Nat)) (r : CreatureRecord) (h : r.image_url = none) :
    (finalizeRecord page url f r).image_url.isSome = page.img.isSome := by
  unfold finalizeRecord
  rcases page.img with _ | im
  · simp [h]
  · rcases hf : f ("https:" ++ pyStrOfOption im.src) with _ | bytes <;> simp [hf]

theorem finalizeRecord_image_alt_isSome (page : Page) (url : String)
    (f : String → Option (List Nat)) (r : CreatureRecord) (h : r.image_alt = none) :
    (finalizeRecord page url f r).image_alt.isSome = page.img.isSome := by
  unfold finalizeRecord
  rcases page.img with _ | im
  · simp [h]
  · rcases hf : f ("https:" ++ pyStrOfOption im.src) with _ | bytes <;> simp [hf]

theorem foldlM_linkStep_ok (entries : List GalleryEntry) :
    ∀ acc : List String, (∀ e ∈ entries, e.firstLink.isSome = true) →
      entries.foldlM linkStep acc = some (acc ++ entries.filterMap hrefAbs) := by
  induction entries with
  | nil => intro acc _; simp
  | cons e t ih =>
    intro acc h
    rcases he : e.firstLink with _ | a
    · have := h e (List.mem_cons_self e t)
      rw [he] at this
      simp at this
    · have ht : ∀ e' ∈ t, e'.firstLink.isSome = true :=
        fun e' he' => h e' (List.mem_cons_of_mem _ he')
      rcases ha : a.href with _ | s
      · simp [List.foldlM_cons, linkStep, he, ha, ih _ ht, hrefAbs]
      · by_cases hs : s = ""
        · simp [List.foldlM_cons, linkStep, he, ha, hs, ih _ ht, hrefAbs]
        · simp [List.foldlM_cons, linkStep, he, ha, hs, ih _ ht, hrefAbs]

theorem foldlM_linkStep_none (entries : List GalleryEntry) :
    ∀ acc : List String, (∃ e ∈ entries, e.firstLink = none) →
      entries.foldlM linkStep acc = none := by
  induction entries with
  | nil =>
    intro acc h
    simp at h
  | cons e t ih =>
    intro acc h
    rcases he : e.firstLink with _ | a
    · simp [List.foldlM_cons, linkStep, he]
    · rcases h with ⟨e', he', hnone⟩
      rcases List.mem_cons.mp he' with rfl | hmem
      · rw [he] at hnone; exact absurd hnone (by simp)
      · rcases ha : a.href with _ | s
        · simp only [List.foldlM_cons, linkStep, he, ha, Option.some_bind]
          exact ih _ ⟨e', hmem, hnone⟩
        · by_cases hs : s = "" <;>
            · simp [List.foldlM_cons, linkStep, he, ha, hs]
              exact ih _ ⟨e', hmem, hnone⟩

/-- C7: for a detail page with zero wikitable-class tables, extraction
returns a record whose only present field is `wiki_url`, equal to the input
link (regardless of any image on the page or of the image oracle). -/
theorem c7_zero_tables_only_wiki_url (img : Option Img) (url : String)
    (f : String → Option (List Nat)) :
    fetch_creature_info ⟨[], img⟩ url f =
      some { wiki_url := url, number := none, name := none, personality := none,
             likes := none, dislikes := none, image_url := none, image_alt := none,
             attribution := none } := rfl

/-- C3: for the compatibility cell "Likes: A, B\nDislikes: C", the extracted
`likes` is exactly [A, B, C] — picking up C because "dislikes" contains
"likes" as a substring and the two branch checks are independent — and the
extracted `dislikes` is exactly [C]. -/
theorem c3_substring_duplication :
    (fetch_creature_info pageGlorp "https://thessum.miraheze.org/wiki/Glorp" noFetch).map
        (fun r => (r.likes, r.dislikes)) =
      some (some ["A", "B", "C"], some ["C"]) := rfl

/-- C1 is a code bug: the guard checks `len(table2_cells) < 4` but the code
then reads `table2_cells[5]`, so a second table with exactly 4 cells raises
IndexError (first conjunct); and a non-empty compatibility line without a
colon raises ValueError in the `split(":")[0:2]` unpacking (second
conjunct).  Both runs end in an exception (`none`) although every fetch
succeeded and the data was merely malformed. -/
theorem c1_guard_mismatch_bug :
    fetch_creature_info pageBug4 "u" noFetch = none ∧
    fetch_creature_info pageBugNoColon "u" noFetch = none := ⟨rfl, rfl⟩

/-- C4 counterexample: the single compatibility line "Dislikes: C"
contributes C to BOTH lists — `likes` and `dislikes` both receive ["C"] —
so a single parsed line does not contribute to at most one of the two
lists. -/
theorem c4_counterexample :
    compatStep ([], []) "Dislikes: C" = some (["C"], ["C"]) ∧
      ¬((["C"] : List String) = [] ∨ (["C"] : List String) = []) := by
  exact ⟨rfl, by simp⟩

/-- C4 amended: a parsed compatibility line whose names reach `dislikes`
always also sends exactly the same names to `likes` (because "dislikes"
contains "likes" as a substring and the two branch checks are independent);
mutual exclusivity per line therefore fails for dislike-lines and holds only
for lines whose key matches "likes" alone. -/
theorem c4_dislikes_line_feeds_both (line : String) (ls ds : List String)
    (h : compatStep ([], []) line = some (ls, ds)) (hds : ds ≠ []) : ls = ds := by
  unfold compatStep at h
  split at h
  · rw [Option.some_inj] at h
    injection h with hA hB
    exact absurd hB.symm hds
  · rcases hlp : lineParts line with _ | ⟨k, v⟩
    · rw [hlp] at h; simp at h
    · rw [hlp] at h
      simp only [Option.some_inj] at h
      injection h with hA hB
      have h1 : ls = if hasLikes k = true then lineCreatures v else [] := by
        rw [← hA]; simp
      have h2 : ds = if hasDislikes k = true then lineCreatures v else [] := by
        rw [← hB]; simp
      have hdk : hasDislikes k = true := by
        by_contra hc
        rw [if_neg hc] at h2
        exact hds h2
      have hlk : hasLikes k = true := by
        have base : containsSeq "likes".data "dislikes".data = true := rfl
        have t1 : ("likes".data : List Char) <:+: "dislikes".data :=
          (containsSeq_iff _ _).mp base
        have t2 : ("dislikes".data : List Char) <:+: k.data.map Char.toLower :=
          (containsSeq_iff _ _).mp hdk
        exact (containsSeq_iff _ _).mpr (t1.trans t2)
      rw [h1, h2, if_pos hlk, if_pos hdk]

/-- C4 witness: applied to the concrete line "Dislikes: B". -/
theorem c4_dislikes_line_feeds_both_witness :
    compatStep ([], []) "Dislikes: B" = some (["B"], ["B"]) ∧
      (["B"] : List String) ≠ [] ∧ (["B"] : List String) = ["B"] :=
  ⟨rfl, by simp, c4_dislikes_line_feeds_both "Dislikes: B" ["B"] ["B"] rfl (by simp)⟩

/-- C8 counterexample: a gallery entry whose link element HAS an `href`
attribute with value the empty string is skipped by `if href:` (Python
truthiness), so discovery returns no URL for it, while the claim as stated
would have it emit the origin followed by the empty href. -/
theorem c8_counterexample :
    fetch_creature_detail_page_links [⟨some ⟨some ""⟩⟩] = some [] ∧
      ([] : List String) ≠ [wiki_base_url ++ ""] := by
  refine ⟨rfl, by simp⟩

/-- C8 amended: provided every gallery-text entry contains a link element,
discovery returns, in document order, one absolute URL per entry with a
non-empty `href` — the fixed site origin prefixed to the href — and skips
silently exactly the entries whose link element has no `href` attribute or
an empty one. -/
theorem c8_links_in_order (entries : List GalleryEntry)
    (h : ∀ e ∈ entries, e.firstLink.isSome = true) :
    fetch_creature_detail_page_links entries = some (entries.filterMap hrefAbs) :=
  foldlM_linkStep_ok entries [] h

/-- C8 witness: one normal entry, one entry with a missing `href`, one entry
with an empty `href`; only the first produces a URL. -/
theorem c8_links_in_order_witness :
    fetch_creature_detail_page_links
        [⟨some ⟨some "/wiki/Glorp"⟩⟩, ⟨some ⟨none⟩⟩, ⟨some ⟨some ""⟩⟩] =
      some ["https://thessum.miraheze.org/wiki/Glorp"] := by
  have := c8_links_in_order
    [⟨some ⟨some "/wiki/Glorp"⟩⟩, ⟨some ⟨none⟩⟩, ⟨some ⟨some ""⟩⟩] (by decide)
  rw [this]
  rfl

/-- C10: link discovery fails (raises AttributeError, modelled as `none`)
as soon as some gallery-text entry contains no link element at all, and it
succeeds whenever every entry contains one (silent skipping applies only to
missing or empty `href` attributes on an existing link element). -/
theorem c10_missing_link_errors (entries : List GalleryEntry) :
    ((∃ e ∈ entries, e.firstLink = none) → fetch_creature_detail_page_links entries = none)
  ∧ ((∀ e ∈ entries, e.firstLink ≠ none) →
      (fetch_creature_detail_page_links entries).isSome = true) := by
  constructor
  · intro h
    exact foldlM_linkStep_none entries [] h
  · intro h
    have h' : ∀ e ∈ entries, e.firstLink.isSome = true := by
      intro e he
      exact Option.ne_none_iff_isSome.mp (h e he)
    rw [fetch_creature_detail_page_links, foldlM_linkStep_ok entries [] h']
    rfl

/-- C10 witness: a single entry with no link element makes discovery fail. -/
theorem c10_missing_link_errors_witness :
    fetch_creature_detail_page_links [⟨none⟩] = none :=
  (c10_missing_link_errors [⟨none⟩]).1 ⟨⟨none⟩, by simp, rfl⟩

theorem table1Step_zero (url : String) (c : String) :
    (table1Step (baseRecord url) (0, c)).number =
      (if containsSeq "TBA".data c.data = true then none
       else some ((pyInt c).elim (Sum.inr c) Sum.inl)) := by
  by_cases hc : containsSeq "TBA".data c.data = true
  · rw [if_pos hc]; unfold table1Step; rw [if_pos hc]; rfl
  · rw [if_neg hc]; unfold table1Step; rw [if_neg hc]; rfl

/-- C5: in every successfully returned record, `likes` and `dislikes` are
absent exactly when the second wikitable is missing or has fewer than 4
cells; otherwise both are present, and when the compatibility cell's
trimmed text is exactly "TBA" both are present and equal to the empty
list. -/
theorem c5_likes_dislikes_presence (page : Page) (url : String)
    (f : String → Option (List Nat)) (r : CreatureRecord)
    (h : fetch_creature_info page url f = some r) :
    (r.likes = none ↔ noCompatTable page = true)
  ∧ (r.dislikes = none ↔ noCompatTable page = true)
  ∧ (∀ t2 c, page.tables[1]? = some t2 → t2[5]? = some c →
      trimChars c.data = "TBA".data → r.likes = some [] ∧ r.dislikes = some []) := by
  rcases hpt : page.tables with _ | ⟨t1, _ | ⟨t2, ts⟩⟩
  · simp only [fetch_creature_info, hpt] at h
    rw [Option.some_inj] at h
    subst h
    refine ⟨?_, ?_, ?_⟩
    · simp [baseRecord, noCompatTable, hpt]
    · simp [baseRecord, noCompatTable, hpt]
    · intro t2 c h2 _ _
      simp at h2
  · simp only [fetch_creature_info, hpt] at h
    rw [Option.some_inj] at h
    subst h
    refine ⟨?_, ?_, ?_⟩
    · rw [applyTable1_likes]; simp [baseRecord, noCompatTable, hpt]
    · rw [applyTable1_dislikes]; simp [baseRecord, noCompatTable, hpt]
    · intro t2 c h2 _ _
      simp at h2
  · simp only [fetch_creature_info, hpt] at h
    by_cases hlen : t2.length < 4
    · rw [if_pos hlen] at h
      rw [Option.some_inj] at h
      subst h
      have hnc : noCompatTable page = true := by simp [noCompatTable, hpt, hlen]
      refine ⟨?_, ?_, ?_⟩
      · rw [applyTable1_likes]; simp [baseRecord, hnc]
      · rw [applyTable1_dislikes]; simp [baseRecord, hnc]
      · intro t2' c h2 h5 htr
        simp only [List.getElem?_cons_succ, List.getElem?_cons_zero, Option.some_inj] at h2
        subst h2
        obtain ⟨hlt, -⟩ := List.getElem?_eq_some_iff.mp h5
        omega
    · rw [if_neg hlen] at h
      split at h
      · simp at h
      · rename_i compat h5
        split at h
        · simp at h
        · rename_i ls ds hcl
          rw [Option.some_inj] at h
          subst h
          have hnc : noCompatTable page = false := by simp [noCompatTable, hpt, hlen]
          have hlikes : (finalizeRecord page url f
              { applyTable1 t1 (baseRecord url) with
                likes := some ls, dislikes := some ds }).likes = some ls := by
            rw [finalizeRecord_likes]
          have hdis : (finalizeRecord page url f
              { applyTable1 t1 (baseRecord url) with
                likes := some ls, dislikes := some ds }).dislikes = some ds := by
            rw [finalizeRecord_dislikes]
          refine ⟨?_, ?_, ?_⟩
          · rw [hlikes, hnc]; simp
          · rw [hdis, hnc]; simp
          · intro t2' c' h2 h5x htr
            simp only [List.getElem?_cons_succ, List.getElem?_cons_zero, Option.some_inj] at h2
            subst h2
            rw [h5] at h5x
            rw [Option.some_inj] at h5x
            subst h5x
            have hTba : compatLists compat = some ([], []) := by
              unfold compatLists
              rw [if_pos htr]
            rw [hTba] at hcl
            rw [Option.some_inj] at hcl
            injection hcl with hA hB
            rw [hlikes, hdis, ← hA, ← hB]
            exact ⟨rfl, rfl⟩

/-- C5 witness: the TBA detail page, whose record carries empty but present
likes/dislikes. -/
theorem c5_likes_dislikes_presence_witness :
    (recTba.likes = none ↔ noCompatTable pageTba = true)
  ∧ (recTba.dislikes = none ↔ noCompatTable pageTba = true)
  ∧ (∀ t2 c, pageTba.tables[1]? = some t2 → t2[5]? = some c →
      trimChars c.data = "TBA".data → recTba.likes = some [] ∧ recTba.dislikes = some []) :=
  c5_likes_dislikes_presence pageTba "u" noFetch recTba rfl

/-- C2 counterexample: a detail page with both tables usable and NO image
element still gets an `attribution` key — the attribution step sits outside
the `if img:` block — while `image_url` and `image_alt` are absent, so
"all three absent when no image element is found" fails on the code. -/
theorem c2_counterexample :
    pageTba.img = none ∧
      (fetch_creature_info pageTba "u" noFetch).map
          (fun r => (r.image_url.isSome, r.image_alt.isSome, r.attribution.isSome)) =
        some (false, false, true) := ⟨rfl, rfl⟩

/-- C2 amended: in every successfully returned record, `image_url` and
`image_alt` are present exactly when an image element was found AND the
extraction reached the image step (second table present with at least 4
cells); `attribution` is present exactly when that step is reached,
independently of whether an image element exists. -/
theorem c2_image_fields_amended (page : Page) (url : String)
    (f : String → Option (List Nat)) (r : CreatureRecord)
    (h : fetch_creature_info page url f = some r) :
    r.image_url.isSome = (page.img.isSome && !noCompatTable page)
  ∧ r.image_alt.isSome = (page.img.isSome && !noCompatTable page)
  ∧ r.attribution.isSome = !noCompatTable page := by
  rcases hpt : page.tables with _ | ⟨t1, _ | ⟨t2, ts⟩⟩
  · simp only [fetch_creature_info, hpt] at h
    rw [Option.some_inj] at h
    subst h
    have hnc : noCompatTable page = true := by simp [noCompatTable, hpt]
    refine ⟨?_, ?_, ?_⟩ <;> simp [baseRecord, hnc]
  · simp only [fetch_creature_info, hpt] at h
    rw [Option.some_inj] at h
    subst h
    have hnc : noCompatTable page = true := by simp [noCompatTable, hpt]
    refine ⟨?_, ?_, ?_⟩
    · rw [applyTable1_image_url]; simp [baseRecord, hnc]
    · rw [applyTable1_image_alt]; simp [baseRecord, hnc]
    · rw [applyTable1_attribution_eq]; simp [baseRecord, hnc]
  · simp only [fetch_creature_info, hpt] at h
    by_cases hlen : t2.length < 4
    · rw [if_pos hlen] at h
      rw [Option.some_inj] at h
      subst h
      have hnc : noCompatTable page = true := by simp [noCompatTable, hpt, hlen]
      refine ⟨?_, ?_, ?_⟩
      · rw [applyTable1_image_url]; simp [baseRecord, hnc]
      · rw [applyTable1_image_alt]; simp [baseRecord, hnc]
      · rw [applyTable1_attribution_eq]; simp [baseRecord, hnc]
    · rw [if_neg hlen] at h
      split at h
      · simp at h
      · rename_i compat h5
        split at h
        · simp at h
        · rename_i ls ds hcl
          rw [Option.some_inj] at h
          subst h
          have hnc : noCompatTable page = false := by simp [noCompatTable, hpt, hlen]
          have hu : ({ applyTable1 t1 (baseRecord url) with
              likes := some ls, dislikes := some ds } : CreatureRecord).image_url = none := by
            show (applyTable1 t1 (baseRecord url)).image_url = none
            rw [applyTable1_image_url]
            rfl
          have ha : ({ applyTable1 t1 (baseRecord url) with
              likes := some ls, dislikes := some ds } : CreatureRecord).image_alt = none := by
            show (applyTable1 t1 (baseRecord url)).image_alt = none
            rw [applyTable1_image_alt]
            rfl
          refine ⟨?_, ?_, ?_⟩
          · rw [finalizeRecord_image_url_isSome _ _ _ _ hu, hnc]
            simp
          · rw [finalizeRecord_image_alt_isSome _ _ _ _ ha, hnc]
            simp
          · rw [finalizeRecord_attribution_set, hnc]
            rfl

/-- C2 witness: applied to the zero-table page, whose record carries no
image fields and no attribution. -/
theorem c2_image_fields_amended_witness :
    (baseRecord "u").image_url.isSome =
        ((⟨[], none⟩ : Page).img.isSome && !noCompatTable ⟨[], none⟩)
  ∧ (baseRecord "u").image_alt.isSome =
        ((⟨[], none⟩ : Page).img.isSome && !noCompatTable ⟨[], none⟩)
  ∧ (baseRecord "u").attribution.isSome = !noCompatTable ⟨[], none⟩ :=
  c2_image_fields_amended ⟨[], none⟩ "u" noFetch (baseRecord "u") rfl

/-- C6: in every successfully returned record, the field `number` is
determined by the first wikitable's cell at flattened index 0: absent when
the cell text contains "TBA", the parsed integer when the text parses as an
integer, and the raw cell text string otherwise. -/
theorem c6_number_positional (page : Page) (url : String)
    (f : String → Option (List Nat)) (r : CreatureRecord)
    (h : fetch_creature_info page url f = some r)
    (c : String) (rest : List String) (h0 : page.tables[0]? = some (c :: rest)) :
    r.number = (if containsSeq "TBA".data c.data = true then none
                else some ((pyInt c).elim (Sum.inr c) Sum.inl)) := by
  rcases hpt : page.tables with _ | ⟨t1, _ | ⟨t2, ts⟩⟩
  · rw [hpt] at h0
    simp at h0
  · rw [hpt] at h0
    simp only [List.getElem?_cons_zero, Option.some_inj] at h0
    subst h0
    simp only [fetch_creature_info, hpt] at h
    rw [Option.some_inj] at h
    subst h
    rw [applyTable1_number_cons, table1Step_zero]
  · rw [hpt] at h0
    simp only [List.getElem?_cons_zero, Option.some_inj] at h0
    subst h0
    simp only [fetch_creature_info, hpt] at h
    by_cases hlen : t2.length < 4
    · rw [if_pos hlen] at h
      rw [Option.some_inj] at h
      subst h
      rw [applyTable1_number_cons, table1Step_zero]
    · rw [if_neg hlen] at h
      split at h
      · simp at h
      · rename_i compat h5
        split at h
        · simp at h
        · rename_i ls ds hcl
          rw [Option.some_inj] at h
          subst h
          have hn : (finalizeRecord page url f
              { applyTable1 (c :: rest) (baseRecord url) with
                likes := some ls, dislikes := some ds }).number =
              (applyTable1 (c :: rest) (baseRecord url)).number := by
            rw [finalizeRecord_number]
          rw [hn, applyTable1_number_cons, table1Step_zero]

/-- C6 witness: the one-table page with first cell "42" yields the integer
42 in `number`. -/
theorem c6_number_positional_witness :
    recC6.number = (if containsSeq "TBA".data "42".data = true then none
                    else some ((pyInt "42").elim (Sum.inr "42") Sum.inl)) ∧
    recC6.number = some (Sum.inl 42) :=
  ⟨c6_number_positional pageC6 "u" noFetch recC6 rfl "42" ["G", "-", "F"] rfl, rfl⟩

theorem strData_append (a b : String) : (a ++ b).data = a.data ++ b.data := rfl

theorem strMk_data (l : List Char) : (String.mk l).data = l := rfl

theorem attrSplit1 :
    ("Information on/pictures of the creature(s) are from the <a href=\"" : String).data =
      fragA ++ hrefPat := rfl

theorem attrSplit2 :
    ("\">The Ssum: Forbidden Lab" : String).data =
      '"' :: ">The Ssum: Forbidden Lab".data := rfl

theorem attrSplit3 :
    ("s Unofficial Miraheze Wiki</a>. Authors of the Wiki article <a href=\"" : String).data =
      "s Unofficial Miraheze Wiki</a>. Authors of the Wiki article <a ".data ++ hrefPat := rfl

theorem attrSplit4 : ("\">" : String).data = ['"', '>'] := rfl

theorem attrSplit5 :
    ("</a> are <a href=\"" : String).data = "</a> are <a ".data ++ hrefPat := rfl

theorem attrSplit6 :
    ("s Unofficial Miraheze Wiki and contributors</a>. Provided under the licence <a href=\"" :
        String).data =
      "s Unofficial Miraheze Wiki and contributors</a>. Provided under the licence <a ".data ++
        hrefPat := rfl

theorem attrSplit7 :
    ("\">Creative Commons Attribution-ShareAlike 4.0 International (CC BY-SA 4.0)</a>." :
        String).data =
      '"' :: fragF := rfl

theorem historyUrl_data (url : String) :
    (historyUrl url).data =
      "https://thessum.miraheze.org/w/index.php?title=".data ++
        (lastSegment url.data ++ "&action=history".data) := by
  simp [historyUrl, strData_append, lastSegmentStr, strMk_data, List.append_assoc]

set_option maxRecDepth 8000 in
theorem attribution_decomp (url : String) :
    (attribution url).data =
      fragA ++ (hrefPat ++ (mainPageUrl.data ++ '"' ::
        (fragB ++ (hrefPat ++ (url.data ++ '"' ::
          (fragC url ++ (hrefPat ++ ((historyUrl url).data ++ '"' ::
            (fragE ++ (hrefPat ++ (licenseUrl.data ++ '"' :: fragF))))))))))) := by
  simp only [attribution, strData_append, strMk_data, attrSplit1, attrSplit2, attrSplit3,
    attrSplit4, attrSplit5, attrSplit6, attrSplit7, fragA, fragB, fragC, fragE, fragF,
    historyUrl_data, List.append_assoc, List.cons_append, List.nil_append]
  rfl

theorem hrefTargets_nil : hrefTargets [] = [] := by
  rw [hrefTargets.eq_def]

theorem hrefTargets_cons_eq (c : Char) (cs : List Char) :
    hrefTargets (c :: cs) =
      if hrefPat.isPrefixOf (c :: cs) = true then
        ((cs.drop 5).takeWhile (fun x => x ≠ '"')) ::
          hrefTargets (((cs.drop 5).dropWhile (fun x => x ≠ '"')).drop 1)
      else hrefTargets cs := by
  rw [hrefTargets.eq_def]

theorem quote_at5_of_isPrefixOf {l : List Char} (h : hrefPat.isPrefixOf l = true) :
    l[5]? = some '"' := by
  rw [isPrefixOf_true_iff] at h
  obtain ⟨t, ht⟩ := h
  subst ht
  rw [List.getElem?_append_left (by decide)]
  rfl

theorem hrefTargets_skip (g R : List Char) (hg : '"' ∉ g)
    (hR : ∀ j, j < 5 → R[j]? ≠ some '"') :
    hrefTargets (g ++ R) = hrefTargets R := by
  induction g with
  | nil => simp
  | cons c g ih =>
    have hcg : '"' ∉ g := fun hx => hg (List.mem_cons_of_mem _ hx)
    rw [List.cons_append, hrefTargets_cons_eq]
    have hfalse : ¬(hrefPat.isPrefixOf (c :: (g ++ R)) = true) := by
      intro hp
      have h5 := quote_at5_of_isPrefixOf hp
      rw [show c :: (g ++ R) = (c :: g) ++ R from rfl] at h5
      rcases Nat.lt_or_ge 5 (c :: g).length with hlt | hge
      · rw [List.getElem?_append_left hlt] at h5
        exact hg (List.getElem?_mem h5)
      · rw [List.getElem?_append_right hge] at h5
        have hsm : 5 - (c :: g).length < 5 := by
          have : 0 < (c :: g).length := by simp
          omega
        exact hR _ hsm h5
    rw [if_neg hfalse]
    exact ih hcg

theorem hrefTargets_of_no_quote (g : List Char) (hg : '"' ∉ g) : hrefTargets g = [] := by
  have h := hrefTargets_skip g [] hg (by intro j hj; simp)
  rw [List.append_nil] at h
  rw [h, hrefTargets_nil]

theorem hrefTargets_match (L R : List Char) (hL : '"' ∉ L) :
    hrefTargets (hrefPat ++ (L ++ '"' :: R)) = L :: hrefTargets R := by
  rw [show hrefPat ++ (L ++ '"' :: R) =
      'h' :: ('r' :: 'e' :: 'f' :: '=' :: '"' :: (L ++ '"' :: R)) from rfl]
  rw [hrefTargets_cons_eq]
  have hcond : hrefPat.isPrefixOf
      ('h' :: ('r' :: 'e' :: 'f' :: '=' :: '"' :: (L ++ '"' :: R))) = true := by
    rw [isPrefixOf_true_iff]
    exact ⟨L ++ '"' :: R, rfl⟩
  rw [if_pos hcond]
  have hall : ∀ a ∈ L, decide (a ≠ '"') = true := by
    intro a ha
    rw [decide_eq_true_eq]
    intro hEq
    exact hL (hEq ▸ ha)
  have hdrop : ('r' :: 'e' :: 'f' :: '=' :: '"' :: (L ++ '"' :: R)).drop 5 = L ++ '"' :: R := rfl
  rw [hdrop]
  rw [List.takeWhile_append_of_pos hall, List.dropWhile_append_of_pos hall]
  rw [List.takeWhile_cons_of_neg (by simp), List.dropWhile_cons_of_neg (by simp)]
  simp

theorem hR_of_pat (X : List Char) : ∀ j, j < 5 → (hrefPat ++ X)[j]? ≠ some '"' := by
  intro j hj
  have h6 : j < hrefPat.length := by
    have : hrefPat.length = 6 := rfl
    omega
  rw [List.getElem?_append_left h6]
  interval_cases j <;> decide

theorem mem_of_mem_takeWhile {α : Type} (p : α → Bool) :
    ∀ (l : List α) (x : α), x ∈ l.takeWhile p → x ∈ l := by
  intro l
  induction l with
  | nil => intro x hx; simp [List.takeWhile] at hx
  | cons a t ih =>
    intro x hx
    rw [List.takeWhile_cons] at hx
    by_cases hp : p a = true
    · rw [if_pos hp] at hx
      rcases List.mem_cons.mp hx with rfl | hx2
      · exact List.mem_cons_self _ _
      · exact List.mem_cons_of_mem _ (ih _ hx2)
    · rw [if_neg hp] at hx
      simp at hx

theorem quote_not_mem_lastSegment (l : List Char) (h : '"' ∉ l) : '"' ∉ lastSegment l := by
  intro hx
  unfold lastSegment at hx
  rw [List.mem_reverse] at hx
  have hx2 := mem_of_mem_takeWhile _ _ _ hx
  rw [List.mem_reverse] at hx2
  exact h hx2

theorem quote_not_mem_replaceUnderscores (l : List Char) (h : '"' ∉ l) :
    '"' ∉ replaceUnderscores l := by
  intro hx
  unfold replaceUnderscores at hx
  rcases List.mem_map.mp hx with ⟨a, ha, hfa⟩
  by_cases hu : a = '_'
  · rw [if_pos hu] at hfa
    simp at hfa
  · rw [if_neg hu] at hfa
    exact h (hfa ▸ ha)

theorem attrSplit3f :
    ("s Unofficial Miraheze Wiki</a>. Authors of the Wiki article <a href=\"" : String).data =
      "s Unofficial Miraheze Wiki</a>. Authors of the Wiki article ".data ++
        ("<a ".data ++ hrefPat) := rfl

theorem attrSplit5f :
    ("</a> are <a href=\"" : String).data =
      "</a>".data ++ (" are <a ".data ++ hrefPat) := rfl

theorem attrSplit9 : ("<a href=\"" : String).data = "<a ".data ++ hrefPat := rfl

set_option maxRecDepth 8000 in
/-- C9: for every detail page URL (free of the quote character, which cannot
occur in a URL), the attribution string embeds exactly four link targets, in
order: the fixed site main page, the detail page URL itself, the
edit-history URL built from the URL's raw last path segment, and the fixed
license URL; moreover the article anchor displays the URL's last path
segment with underscores replaced by spaces. -/
theorem c9_attribution_four_links (url : String) (hq : '"' ∉ url.data) :
    hrefTargets (attribution url).data =
      [mainPageUrl.data, url.data, (historyUrl url).data, licenseUrl.data]
  ∧ (articleAnchor url).data <:+: (attribution url).data := by
  have hseg : '"' ∉ lastSegment url.data := quote_not_mem_lastSegment _ hq
  have hdisp : '"' ∉ replaceUnderscores (lastSegment url.data) :=
    quote_not_mem_replaceUnderscores _ hseg
  have hgA : '"' ∉ fragA := by decide
  have hgB : '"' ∉ fragB := by decide
  have hgE : '"' ∉ fragE := by decide
  have hgF : '"' ∉ fragF := by decide
  have hL1 : '"' ∉ mainPageUrl.data := by decide
  have hL4 : '"' ∉ licenseUrl.data := by decide
  have hgC : '"' ∉ fragC url := by
    intro hx
    unfold fragC at hx
    rcases List.mem_cons.mp hx with h1 | h2
    · exact absurd h1 (by decide)
    · rcases List.mem_append.mp h2 with h3 | h4
      · exact hdisp h3
      · exact absurd h4 (by decide)
  have hL3 : '"' ∉ (historyUrl url).data := by
    rw [historyUrl_data]
    intro hx
    rcases List.mem_append.mp hx with h1 | h2
    · exact absurd h1 (by decide)
    · rcases List.mem_append.mp h2 with h3 | h4
      · exact hseg h3
      · exact absurd h4 (by decide)
  constructor
  · rw [attribution_decomp]
    rw [hrefTargets_skip _ _ hgA (hR_of_pat _)]
    rw [hrefTargets_match _ _ hL1]
    rw [hrefTargets_skip _ _ hgB (hR_of_pat _)]
    rw [hrefTargets_match _ _ hq]
    rw [hrefTargets_skip _ _ hgC (hR_of_pat _)]
    rw [hrefTargets_match _ _ hL3]
    rw [hrefTargets_skip _ _ hgE (hR_of_pat _)]
    rw [hrefTargets_match _ _ hL4]
    rw [hrefTargets_of_no_quote _ hgF]
  · refine ⟨fragA ++ (hrefPat ++ (mainPageUrl.data ++ ('"' ::
      (">The Ssum: Forbidden Lab".data ++ (apos.data ++
        "s Unofficial Miraheze Wiki</a>. Authors of the Wiki article ".data))))),
      " are <a ".data ++ (hrefPat ++ ((historyUrl url).data ++ ('"' ::
        (">The Ssum: Forbidden Lab".data ++ (apos.data ++
          ("s Unofficial Miraheze Wiki and contributors</a>. Provided under the licence <a ".data ++
            (hrefPat ++ (licenseUrl.data ++ ('"' :: fragF))))))))), ?_⟩
    simp only [attribution, articleAnchor, strData_append, strMk_data, attrSplit1, attrSplit2,
      attrSplit3f, attrSplit4, attrSplit5f, attrSplit6, attrSplit7, attrSplit9, fragA, fragF,
      historyUrl_data, List.append_assoc, List.cons_append, List.nil_append]
    rfl

/-- C9 witness: the concrete URL for "Space_Creature_X", whose attribution
embeds exactly the four expected links. -/
theorem c9_attribution_four_links_witness :
    ('"' ∉ urlX.data) ∧
      (hrefTargets (attribution urlX).data =
        [mainPageUrl.data, urlX.data, (historyUrl urlX).data, licenseUrl.data]
      ∧ (articleAnchor urlX).data <:+: (attribution urlX).data) :=
  ⟨by decide, c9_attribution_four_links urlX (by decide)⟩
